import Mathlib

set_option maxRecDepth 100000

/-!
Verification of the gpytorch-example repository: three tutorial notebooks
(`Saving and Loading Models`, `Spectral_Mixture_GP_Regression`,
`Exact_GP_Posterior_Sampling_with_CIQ`).  The repository's own code is
orchestration: build a model from torch/gpytorch modules, train it with a
simple Adam loop on the negated exact marginal log-likelihood, save/load
its `state_dict`, and plot.  We shallowly embed the parameter-dictionary
data model, the module trees the notebooks construct, the `state_dict` /
`load_state_dict` / `torch.save` / `torch.load` dataflow of the save/load
notebook, and the per-notebook statement traces (including the training
loops as functions of the `CI` / `HAVE_KEOPS` / CUDA configuration bits).
-/

namespace GPNotebooks

/-- A numeric scalar appearing in a state dict, in units of 1/10000
(all values printed by the notebooks have at most four decimal places,
e.g. `0.8416`, `1.0000e-04`), or positive infinity (the constraint
upper bounds print as `inf`). -/
inductive Val where
  | fin (tenThousandths : Int)
  | inf
  deriving DecidableEq

/-- A tensor value as displayed in the notebooks' state dicts: a 0-d
scalar such as `tensor(0.)`, a 1-d vector such as `tensor([0., 0.])`,
or a 2-d matrix such as `tensor([[2.0826]])`. -/
inductive Tensor where
  | scalar (v : Val)
  | vec (xs : List Val)
  | mat (rows : List (List Val))
  deriving DecidableEq

/-- The parameter dictionary: an ordered mapping from dotted parameter
names to tensors, as produced by `model.state_dict()`. -/
def StateDict : Type := List (String × Tensor)

instance : DecidableEq StateDict := by
  unfold StateDict
  infer_instance

/-- The key list of a state dict, in order. -/
def keysOf (sd : StateDict) : List String := sd.map Prod.fst

/-- Lookup of a key in a state dict (first match). -/
def lookupSD (sd : StateDict) (k : String) : Option Tensor := List.lookup k sd

/-- The torch/gpytorch module shapes the notebooks instantiate:
`GaussianLikelihood`, `ConstantMean`, `RBFKernel`,
`ScaleKernel(base)`, `SpectralMixtureKernel(num_mixtures=4)`,
`Linear(in, out)`, `BatchNorm1d(n)`, `ReLU`, and `Sequential(...)`. -/
inductive TorchModule where
  | gaussianLikelihood
  | constantMean
  | rbfKernel
  | spectralMixtureKernel (numMixtures : Nat)
  | scaleKernel (base : TorchModule)
  | linear (inFeatures outFeatures : Nat)
  | batchNorm1d (numFeatures : Nat)
  | relu
  | sequential (children : List TorchModule)

mutual

/-- The relative state-dict keys of one module, in the order the external
framework's recursive `state_dict` traversal emits them; values are read
off the state dicts the save/load notebook displays. -/
def paramKeys : TorchModule → List String
  | .gaussianLikelihood =>
      ["noise_covar.raw_noise",
       "noise_covar.raw_noise_constraint.lower_bound",
       "noise_covar.raw_noise_constraint.upper_bound"]
  | .constantMean => ["raw_constant"]
  | .rbfKernel =>
      ["raw_lengthscale",
       "raw_lengthscale_constraint.lower_bound",
       "raw_lengthscale_constraint.upper_bound"]
  | .spectralMixtureKernel _ =>
      ["raw_mixture_weights", "raw_mixture_means", "raw_mixture_scales"]
  | .scaleKernel base =>
      "raw_outputscale" ::
        ((paramKeys base).map (fun k => "base_kernel." ++ k) ++
          ["raw_outputscale_constraint.lower_bound",
           "raw_outputscale_constraint.upper_bound"])
  | .linear _ _ => ["weight", "bias"]
  | .batchNorm1d _ =>
      ["weight", "bias", "running_mean", "running_var", "num_batches_tracked"]
  | .relu => []
  | .sequential ms => seqParamKeys 0 ms

/-- Keys of the children of a `Sequential`, each prefixed with its
position index (`0.weight`, `1.running_mean`, ...). -/
def seqParamKeys : Nat → List TorchModule → List String
  | _, [] => []
  | i, m :: ms =>
      (paramKeys m).map (fun k => toString i ++ "." ++ k) ++ seqParamKeys (i + 1) ms

end

/-- The full ordered key list of a model given as named child modules. -/
def stateKeys (mods : List (String × TorchModule)) : List String :=
  (mods.map (fun nm => (paramKeys nm.2).map (fun k => nm.1 ++ "." ++ k))).flatten

/-- Child modules of `ExactGPModel` from the save/load notebook:
the likelihood registered by the `ExactGP` constructor, then
`self.mean_module = ConstantMean()` and
`self.covar_module = ScaleKernel(RBFKernel())`. -/
def ExactGPModelModules : List (String × TorchModule) :=
  [("likelihood", .gaussianLikelihood),
   ("mean_module", .constantMean),
   ("covar_module", .scaleKernel .rbfKernel)]

/-- The `Sequential` feature extractor of `GPWithNNFeatureExtractor`:
`Linear(1,2), BatchNorm1d(2), ReLU(), Linear(2,2), BatchNorm1d(2), ReLU()`. -/
def featureExtractor : TorchModule :=
  .sequential [.linear 1 2, .batchNorm1d 2, .relu, .linear 2 2, .batchNorm1d 2, .relu]

/-- Child modules of `GPWithNNFeatureExtractor` from the save/load
notebook: the same GP parts as `ExactGPModel` plus the neural-network
feature extractor. -/
def GPWithNNFeatureExtractorModules : List (String × TorchModule) :=
  [("likelihood", .gaussianLikelihood),
   ("mean_module", .constantMean),
   ("covar_module", .scaleKernel .rbfKernel),
   ("feature_extractor", featureExtractor)]

/-- A constructed model: its architecture (the named child-module list,
determined by the class and constructor arguments) and the current value
of every parameter/buffer.  A freshly constructed model carries whatever
(random) initial values `vals` happens to hold. -/
structure GPModel where
  arch : List (String × TorchModule)
  vals : String → Tensor

/-- `model.state_dict()`: the ordered dictionary of the model's keys with
their current values. -/
def GPModel.state_dict (m : GPModel) : StateDict :=
  (stateKeys m.arch).map (fun k => (k, m.vals k))

/-- The report `load_state_dict` produces when keys do not match in
strict mode. -/
structure IncompatibleKeys where
  missing_keys : List String
  unexpected_keys : List String

/-- `model.load_state_dict(sd)` in (default) strict mode: it fails when
the model has a key absent from `sd` (missing) or `sd` has a key the
model lacks (unexpected); otherwise it copies every value of `sd` into
the model and reports all keys matched. -/
def GPModel.load_state_dict (m : GPModel) (sd : StateDict) :
    Except IncompatibleKeys GPModel :=
  let modelKeys := stateKeys m.arch
  let missing := modelKeys.filter (fun k => (lookupSD sd k).isNone)
  let unexpected := (keysOf sd).filter (fun k => !(modelKeys.contains k))
  if missing = [] ∧ unexpected = [] then
    .ok { m with
          vals := fun k =>
            match lookupSD sd k with
            | some t => t
            | none => m.vals k }
  else
    .error ⟨missing, unexpected⟩

/-- A checkpoint file's content.  Modelled from the spec: the binary
format is fully owned by the external tensor framework and the spec
guarantees the save/load round trip reproduces identical values, so the
checkpoint content is the dictionary itself. -/
def Checkpoint : Type := StateDict

/-- `torch.save(sd, file)`: serializes the dictionary. -/
def torch_save (sd : StateDict) : Checkpoint := sd

/-- `torch.load(file)`: deserializes the checkpoint. -/
def torch_load (c : Checkpoint) : StateDict := c

/-- Shorthand for a finite scalar value in ten-thousandths. -/
def v (z : Int) : Val := .fin z

/-- The state dict of `ExactGPModel` printed by the save/load notebook
(cell 5), after `outputscale = 1.2` and `lengthscale = 2.2` were set
(raw values `0.8416` and `2.0826`). -/
def exactGPStateDict : StateDict :=
  [("likelihood.noise_covar.raw_noise", .vec [v 0]),
   ("likelihood.noise_covar.raw_noise_constraint.lower_bound", .scalar (v 1)),
   ("likelihood.noise_covar.raw_noise_constraint.upper_bound", .scalar .inf),
   ("mean_module.raw_constant", .scalar (v 0)),
   ("covar_module.raw_outputscale", .scalar (v 8416)),
   ("covar_module.base_kernel.raw_lengthscale", .mat [[v 20826]]),
   ("covar_module.base_kernel.raw_lengthscale_constraint.lower_bound", .scalar (v 0)),
   ("covar_module.base_kernel.raw_lengthscale_constraint.upper_bound", .scalar .inf),
   ("covar_module.raw_outputscale_constraint.lower_bound", .scalar (v 0)),
   ("covar_module.raw_outputscale_constraint.upper_bound", .scalar .inf)]

/-- The state dict of `GPWithNNFeatureExtractor` printed by the
save/load notebook (cell 11). -/
def nnGPStateDict : StateDict :=
  [("likelihood.noise_covar.raw_noise", .vec [v 0]),
   ("likelihood.noise_covar.raw_noise_constraint.lower_bound", .scalar (v 1)),
   ("likelihood.noise_covar.raw_noise_constraint.upper_bound", .scalar .inf),
   ("mean_module.raw_constant", .scalar (v 0)),
   ("covar_module.raw_outputscale", .scalar (v 0)),
   ("covar_module.base_kernel.raw_lengthscale", .mat [[v 0]]),
   ("covar_module.base_kernel.raw_lengthscale_constraint.lower_bound", .scalar (v 0)),
   ("covar_module.base_kernel.raw_lengthscale_constraint.upper_bound", .scalar .inf),
   ("covar_module.raw_outputscale_constraint.lower_bound", .scalar (v 0)),
   ("covar_module.raw_outputscale_constraint.upper_bound", .scalar .inf),
   ("feature_extractor.0.weight", .mat [[v (-2407)], [v 6045]]),
   ("feature_extractor.0.bias", .vec [v (-2979), v (-7298)]),
   ("feature_extractor.1.weight", .vec [v 10000, v 10000]),
   ("feature_extractor.1.bias", .vec [v 0, v 0]),
   ("feature_extractor.1.running_mean", .vec [v 0, v 0]),
   ("feature_extractor.1.running_var", .vec [v 10000, v 10000]),
   ("feature_extractor.1.num_batches_tracked", .scalar (v 0)),
   ("feature_extractor.3.weight", .mat [[v (-4799), v (-1244)], [v (-4018), v (-1852)]]),
   ("feature_extractor.3.bias", .vec [v (-2166), v 2943]),
   ("feature_extractor.4.weight", .vec [v 10000, v 10000]),
   ("feature_extractor.4.bias", .vec [v 0, v 0]),
   ("feature_extractor.4.running_mean", .vec [v 0, v 0]),
   ("feature_extractor.4.running_var", .vec [v 10000, v 10000]),
   ("feature_extractor.4.num_batches_tracked", .scalar (v 0))]

/-- The `ExactGPModel` instance from cell 5 of the save/load notebook:
its architecture together with the displayed parameter values. -/
def savedExactModel : GPModel where
  arch := ExactGPModelModules
  vals := fun k =>
    match lookupSD exactGPStateDict k with
    | some t => t
    | none => .scalar (v 0)

/-- The `GPWithNNFeatureExtractor` instance from cell 11 of the
save/load notebook. -/
def savedNNModel : GPModel where
  arch := GPWithNNFeatureExtractorModules
  vals := fun k =>
    match lookupSD nnGPStateDict k with
    | some t => t
    | none => .scalar (v 0)

/-- A freshly constructed `ExactGPModel(train_x, train_y, likelihood)`
(cell 7): same class and constructor arguments, hence the same
architecture; its initial values are irrelevant to loading. -/
def freshExactModel : GPModel where
  arch := ExactGPModelModules
  vals := fun _ => .scalar (v 0)

/-- A freshly constructed `GPWithNNFeatureExtractor(train_x, train_y,
likelihood)` (cell 12). -/
def freshNNModel : GPModel where
  arch := GPWithNNFeatureExtractorModules
  vals := fun _ => .scalar (v 0)

/-- A primitive effect a notebook statement performs by calling into the
external framework (torch/gpytorch/matplotlib/os).  The constructor
`validateCheckpoint` stands for checkpoint framing/versioning/validation
logic; no notebook statement emits it. -/
inductive Event where
  | mkTensor (name : String)
  | defineClass (name base : String)
  | construct (cls : String)
  | chooseKernel (kernel : String)
  | setHyper (path : String)
  | stateDictCall
  | displayValue
  | saveCheckpoint (file : String)
  | loadCheckpoint (file : String)
  | loadStateDictCall (cls : String)
  | readEnv (name : String)
  | setFlag (name : String) (value : Bool)
  | setTrainMode
  | setEvalMode
  | mkAdam (lrTenThousandths : Nat)
  | mkMLL
  | zeroGrad
  | evalModel (input : String)
  | computeLoss (negated : Bool) (objective target : String)
  | backward
  | printIter (i total : Nat)
  | adamStep
  | cudaMove
  | warnFilter (category : String)
  | mkTestTensor (name : String) (size : Nat)
  | printMsg
  | plotFigure
  | rsampleCall (ciq : Bool)
  | validateCheckpoint
  deriving DecidableEq

/-- A notebook statement: a primitive call into the external framework,
or a try/except block over primitive calls (no notebook contains one). -/
inductive Stmt where
  | call (e : Event)
  | tryExcept (body handler : List Event)
  deriving DecidableEq

/-- The primitive events of one statement. -/
def stmtEvents : Stmt → List Event
  | .call e => [e]
  | .tryExcept body handler => body ++ handler

/-- The primitive events of a statement list, in program order. -/
def primEvents (p : List Stmt) : List Event :=
  (p.map stmtEvents).flatten

/-- `for i in range(n): body(i)`. -/
def pyFor (n : Nat) (body : Nat → List Stmt) : List Stmt :=
  ((List.range n).map body).flatten

/-- `training_iter = 2 if smoke_test else 100` in the spectral-mixture
notebook, where `smoke_test = ('CI' in os.environ)`. -/
def trainingIterSpectral (ci : Bool) : Nat := if ci then 2 else 100

/-- `training_iter = 2 if smoke_test else 50` in the CIQ notebook. -/
def trainingIterCIQ (ci : Bool) : Nat := if ci then 2 else 50

/-- The body of both training loops: `optimizer.zero_grad()`,
`output = model(train_x)`, `loss = -mll(output, train_y)`,
`loss.backward()`, the progress `print`, `optimizer.step()`. -/
def gpLoopBody (total : Nat) (i : Nat) : List Stmt :=
  [.call .zeroGrad,
   .call (.evalModel "train_x"),
   .call (.computeLoss true "ExactMarginalLogLikelihood" "train_y"),
   .call .backward,
   .call (.printIter (i + 1) total),
   .call .adamStep]

/-- Statement trace of the save/load notebook, cell by cell. -/
def saveLoadNotebook : List Stmt :=
  [.call (.mkTensor "train_x"),
   .call (.mkTensor "train_y"),
   .call (.defineClass "ExactGPModel" "gpytorch.models.ExactGP"),
   .call (.construct "GaussianLikelihood"),
   .call (.construct "ExactGPModel"),
   .call (.setHyper "covar_module.outputscale"),
   .call (.setHyper "covar_module.base_kernel.lengthscale"),
   .call .stateDictCall,
   .call .displayValue,
   .call (.saveCheckpoint "model_state.pth"),
   .call (.loadCheckpoint "model_state.pth"),
   .call (.construct "ExactGPModel"),
   .call (.loadStateDictCall "ExactGPModel"),
   .call .displayValue,
   .call .stateDictCall,
   .call .displayValue,
   .call (.defineClass "GPWithNNFeatureExtractor" "gpytorch.models.ExactGP"),
   .call (.construct "GaussianLikelihood"),
   .call (.construct "GPWithNNFeatureExtractor"),
   .call .stateDictCall,
   .call .displayValue,
   .call (.saveCheckpoint "my_gp_with_nn_model.pth"),
   .call (.loadCheckpoint "my_gp_with_nn_model.pth"),
   .call (.construct "GPWithNNFeatureExtractor"),
   .call (.loadStateDictCall "GPWithNNFeatureExtractor"),
   .call .displayValue,
   .call .stateDictCall,
   .call .displayValue]

/-- Statement trace of the spectral-mixture notebook, as a function of
whether the `CI` environment variable is set. -/
def spectralNotebook (ci : Bool) : List Stmt :=
  [.call (.mkTensor "train_x"),
   .call (.mkTensor "train_y"),
   .call (.defineClass "SpectralMixtureGPModel" "gpytorch.models.ExactGP"),
   .call (.construct "GaussianLikelihood"),
   .call (.construct "SpectralMixtureGPModel"),
   .call (.readEnv "CI"),
   .call .setTrainMode,
   .call .setTrainMode,
   .call (.mkAdam 1000),
   .call .mkMLL] ++
  pyFor (trainingIterSpectral ci) (gpLoopBody (trainingIterSpectral ci)) ++
  [.call (.mkTestTensor "test_x" 51),
   .call .setEvalMode,
   .call .setEvalMode,
   .call (.evalModel "test_x"),
   .call .plotFigure]

/-- `test_n = 50000 if HAVE_KEOPS else 10000` in the CIQ notebook. -/
def ciqTestN (keops : Bool) : Nat := if keops then 50000 else 10000

/-- The kernel chosen inside the CIQ `ExactGPModel.__init__` depending
on `HAVE_KEOPS`. -/
def ciqKernel (keops : Bool) : String :=
  if keops then "keops.RBFKernel" else "RBFKernel"

/-- Statement trace of the CIQ posterior-sampling notebook, as a
function of the `CI` environment variable, the `HAVE_KEOPS` flag, and
CUDA availability. -/
def ciqNotebook (ci keops cuda : Bool) : List Stmt :=
  [.call (.warnFilter "NumericalWarning"),
   .call (.mkTensor "train_x"),
   .call (.mkTensor "train_y"),
   .call (.setFlag "HAVE_KEOPS" keops),
   .call (.defineClass "ExactGPModel" "gpytorch.models.ExactGP"),
   .call (.construct "GaussianLikelihood"),
   .call (.chooseKernel (ciqKernel keops)),
   .call (.construct "ExactGPModel")] ++
  (if cuda then
     [.call .cudaMove, .call .cudaMove, .call .cudaMove, .call .cudaMove]
   else []) ++
  [.call (.readEnv "CI"),
   .call .setTrainMode,
   .call .setTrainMode,
   .call (.mkAdam 1000),
   .call .mkMLL] ++
  pyFor (trainingIterCIQ ci) (gpLoopBody (trainingIterCIQ ci)) ++
  [.call (.mkTestTensor "test_x" (ciqTestN keops))] ++
  (if cuda then [.call .cudaMove] else []) ++
  [.call .printMsg,
   .call .setTrainMode,
   .call .setTrainMode,
   .call .setEvalMode,
   .call .setEvalMode,
   .call (.evalModel "test_x"),
   .call .printMsg,
   .call (.rsampleCall true),
   .call .printMsg,
   .call (.rsampleCall false)]

/-- Is an event a `torch.save` of file `f`? -/
def isSaveOf (f : String) (e : Event) : Bool :=
  match e with
  | .saveCheckpoint g => f == g
  | _ => false

/-- Is an event a `torch.load` of file `f`? -/
def isLoadOf (f : String) (e : Event) : Bool :=
  match e with
  | .loadCheckpoint g => f == g
  | _ => false

/-- Is an event any `torch.save`? -/
def isSave (e : Event) : Bool :=
  match e with
  | .saveCheckpoint _ => true
  | _ => false

/-- Is an event any `torch.load`? -/
def isLoad (e : Event) : Bool :=
  match e with
  | .loadCheckpoint _ => true
  | _ => false

/-- Count of matching primitive events in a notebook. -/
def countEvents (p : List Stmt) (q : Event → Bool) : Nat :=
  ((primEvents p).filter q).length

/-- What the external framework does at one primitive call: `none`
means the call returns normally, `some exn` means it raises the
exception `exn`. -/
def Fault : Type := Event → Option String

/-- Execution of a plain event sequence: events run left to right; the
first raised exception aborts the rest. -/
def runEvents (f : Fault) : List Event → Except String (List Event)
  | [] => .ok []
  | e :: rest =>
      match f e with
      | some exn => .error exn
      | none =>
          match runEvents f rest with
          | .error exn => .error exn
          | .ok evs => .ok (e :: evs)

/-- Execution of one statement; a try/except block runs its handler
when its body raises. -/
def runStmt (f : Fault) : Stmt → Except String (List Event)
  | .call e =>
      match f e with
      | some exn => .error exn
      | none => .ok [e]
  | .tryExcept body handler =>
      match runEvents f body with
      | .error _ => runEvents f handler
      | .ok evs => .ok evs

/-- Execution of a statement list under fault oracle `f`. -/
def runStmts (f : Fault) : List Stmt → Except String (List Event)
  | [] => .ok []
  | s :: rest =>
      match runStmt f s with
      | .error exn => .error exn
      | .ok evs =>
          match runStmts f rest with
          | .error exn => .error exn
          | .ok evs2 => .ok (evs ++ evs2)

/-- The first exception the framework raises along an event list. -/
def firstFault (f : Fault) : List Event → Option String
  | [] => none
  | e :: rest =>
      match f e with
      | some exn => some exn
      | none => firstFault f rest

/-- Reference semantics of a program with no error handling: the first
raised exception propagates unchanged to the top level. -/
def propagateAll (f : Fault) (evs : List Event) : Except String (List Event) :=
  match firstFault f evs with
  | some exn => .error exn
  | none => .ok evs

/-- Is a single statement free of try/except? -/
def stmtHandlerFree : Stmt → Bool
  | .call _ => true
  | .tryExcept _ _ => false

/-- No statement of the list is a try/except block. -/
def handlerFree (p : List Stmt) : Bool :=
  p.all stmtHandlerFree

/-- A character usable in a Python identifier. -/
def isIdentChar (c : Char) : Bool :=
  c.isAlphanum || c == '_'

/-- A Python identifier: nonempty, identifier characters only, not
starting with a digit. -/
def isIdentifier (s : String) : Bool :=
  !s.isEmpty && s.toList.all isIdentChar &&
    !(s.toList.headI.isDigit)

/-- A decimal numeral: nonempty and digits only (the child index of a
`Sequential`, e.g. the `0` of `feature_extractor.0.weight`). -/
def isNumeral (s : String) : Bool :=
  !s.isEmpty && s.toList.all Char.isDigit

/-- Splitting a character list at every dot (accumulator holds the
current segment reversed). -/
def segsAux : List Char → List Char → List String
  | [], acc => [String.mk acc.reverse]
  | c :: rest, acc =>
      if c = '.' then String.mk acc.reverse :: segsAux rest []
      else segsAux rest (c :: acc)

/-- The dot-separated segments of a dotted parameter name. -/
def nameSegs (s : String) : List String :=
  segsAux s.toList []

/-- A dotted name all of whose dot-separated segments are identifiers. -/
def isDottedIdentName (s : String) : Bool :=
  (nameSegs s).all isIdentifier

/-- A dotted name whose segments are identifiers or decimal numerals
(a `Sequential` child index such as the `0` of
`feature_extractor.0.weight` is a numeral, not an identifier). -/
def isDottedName (s : String) : Bool :=
  (nameSegs s).all (fun seg => isIdentifier seg || isNumeral seg)

/-- Is an event a class definition (`class ... (gpytorch.models.ExactGP)`)? -/
def isDefineClass (e : Event) : Bool :=
  match e with
  | .defineClass _ _ => true
  | _ => false

/-- Is an event one Adam optimizer step (`optimizer.step()`)? -/
def isAdamStep (e : Event) : Bool :=
  match e with
  | .adamStep => true
  | _ => false

/-- Is an event a plotting call? -/
def isPlot (e : Event) : Bool :=
  match e with
  | .plotFigure => true
  | _ => false

/-- Is an event checkpoint framing/versioning/validation logic? -/
def isValidation (e : Event) : Bool :=
  match e with
  | .validateCheckpoint => true
  | _ => false

/-- Is an event a read of the configuration surface (an environment
variable or an in-notebook configuration flag)? -/
def isConfigRead (e : Event) : Bool :=
  match e with
  | .readEnv _ => true
  | .setFlag _ _ => true
  | _ => false

/-- Is an event the computation of the training loss as the negated
exact marginal log-likelihood? -/
def isMLLLossStep (e : Event) : Bool :=
  match e with
  | .computeLoss true "ExactMarginalLogLikelihood" _ => true
  | _ => false

/-- Events belonging to a training-loop iteration body. -/
def isLoopEvent (e : Event) : Bool :=
  match e with
  | .zeroGrad => true
  | .evalModel s => s == "train_x"
  | .computeLoss _ _ _ => true
  | .backward => true
  | .printIter _ _ => true
  | .adamStep => true
  | _ => false

/-- The notebook defines a model subclass. -/
def definesModelClass (p : List Stmt) : Bool :=
  (primEvents p).any isDefineClass

/-- The notebook runs a gradient-descent loop on a marginal-likelihood
objective (it computes a negated exact-MLL loss and takes optimizer
steps). -/
def runsTrainingLoop (p : List Stmt) : Bool :=
  (primEvents p).any isMLLLossStep && (primEvents p).any isAdamStep

/-- The notebook both saves and loads learned parameters. -/
def savesAndLoads (p : List Stmt) : Bool :=
  (primEvents p).any isSave && (primEvents p).any isLoad

/-- The notebook plots predictive results. -/
def plotsResults (p : List Stmt) : Bool :=
  (primEvents p).any isPlot

/-- The non-trainable constraint-bound entries present in both models'
checkpoints: lower and upper bounds for noise, lengthscale, and
outputscale. -/
def constraintBoundKeys : List String :=
  ["likelihood.noise_covar.raw_noise_constraint.lower_bound",
   "likelihood.noise_covar.raw_noise_constraint.upper_bound",
   "covar_module.base_kernel.raw_lengthscale_constraint.lower_bound",
   "covar_module.base_kernel.raw_lengthscale_constraint.upper_bound",
   "covar_module.raw_outputscale_constraint.lower_bound",
   "covar_module.raw_outputscale_constraint.upper_bound"]

/-- The batch-norm buffer entries of the NN feature extractor's
checkpoint. -/
def batchNormBufferKeys : List String :=
  ["feature_extractor.1.running_mean",
   "feature_extractor.1.running_var",
   "feature_extractor.1.num_batches_tracked",
   "feature_extractor.4.running_mean",
   "feature_extractor.4.running_var",
   "feature_extractor.4.num_batches_tracked"]

/-- The model obtained by loading the saved `ExactGPModel` checkpoint
into a freshly constructed `ExactGPModel`. -/
def exactRoundtripModel : GPModel where
  arch := ExactGPModelModules
  vals := fun k =>
    match lookupSD exactGPStateDict k with
    | some t => t
    | none => freshExactModel.vals k

/-- The model obtained by loading the saved `GPWithNNFeatureExtractor`
checkpoint into a freshly constructed `GPWithNNFeatureExtractor`. -/
def nnRoundtripModel : GPModel where
  arch := GPWithNNFeatureExtractorModules
  vals := fun k =>
    match lookupSD nnGPStateDict k with
    | some t => t
    | none => freshNNModel.vals k

/-- State touched by one training-loop iteration: the training data,
the model/likelihood parameter values, their gradients, and the Adam
optimizer's per-parameter moment estimates. -/
structure TrainState where
  train_x : List Val
  train_y : List Val
  params : String → Tensor
  grads : String → Tensor
  optMoments : String → Tensor × Tensor

/-- `optimizer.zero_grad()`: clears all gradients. -/
def zero_grad (s : TrainState) : TrainState :=
  { s with grads := fun _ => Tensor.scalar (Val.fin 0) }

/-- `loss.backward()`: writes each parameter's gradient, a function `g`
of the current parameters and the training data (the loss is built from
`model(train_x)` and `train_y` alone). -/
def backwardStep
    (g : (String → Tensor) → List Val → List Val → String → Tensor)
    (s : TrainState) : TrainState :=
  { s with grads := g s.params s.train_x s.train_y }

/-- `optimizer.step()`: Adam updates each parameter and its moment
estimates from the parameter, its gradient, and the previous moments. -/
def adamUpdate
    (adam : Tensor → Tensor → Tensor × Tensor → Tensor × (Tensor × Tensor))
    (s : TrainState) : TrainState :=
  { s with
    params := fun k => (adam (s.params k) (s.grads k) (s.optMoments k)).1,
    optMoments := fun k => (adam (s.params k) (s.grads k) (s.optMoments k)).2 }

/-- One full iteration of the training loop (the forward pass and loss
computation read the state but do not change it). -/
def trainStep
    (g : (String → Tensor) → List Val → List Val → String → Tensor)
    (adam : Tensor → Tensor → Tensor × Tensor → Tensor × (Tensor × Tensor))
    (s : TrainState) : TrainState :=
  adamUpdate adam (backwardStep g (zero_grad s))

lemma lookupSD_cons (a : String) (t : Tensor) (ps : StateDict) (k : String) :
    lookupSD ((a, t) :: ps) k = if k = a then some t else lookupSD ps k := by
  by_cases hk : k = a
  · simp [lookupSD, List.lookup, hk]
  · have hb : (k == a) = false := by simp [hk]
    simp [lookupSD, List.lookup, hb, hk]

lemma lookupSD_map_self (f : String → Tensor) (keys : List String) (k : String) :
    lookupSD (keys.map fun x => (x, f x)) k =
      if k ∈ keys then some (f k) else none := by
  induction keys with
  | nil => simp [lookupSD]
  | cons a as ih =>
      simp only [List.map_cons, lookupSD_cons, List.mem_cons]
      by_cases hk : k = a
      · subst hk; simp
      · by_cases hmem : k ∈ as <;> simp [hk, hmem, ih]

lemma state_dict_keys (m : GPModel) : keysOf m.state_dict = stateKeys m.arch := by
  simp [GPModel.state_dict, keysOf, List.map_map, Function.comp_def]

lemma lookup_state_dict (m : GPModel) (k : String) :
    lookupSD m.state_dict k =
      if k ∈ stateKeys m.arch then some (m.vals k) else none := by
  simp [GPModel.state_dict, lookupSD_map_self]

lemma lookupSD_isSome (sd : StateDict) (k : String) :
    (lookupSD sd k).isSome ↔ k ∈ keysOf sd := by
  induction sd with
  | nil => simp [lookupSD, keysOf]
  | cons p ps ih =>
      rcases p with ⟨a, t⟩
      rw [lookupSD_cons]
      by_cases hk : k = a
      · simp [keysOf, hk]
      · simpa [keysOf, hk] using ih

lemma load_state_dict_ok_iff (m : GPModel) (sd : StateDict) :
    (∃ m2, m.load_state_dict sd = .ok m2) ↔
      ((stateKeys m.arch).filter (fun k => (lookupSD sd k).isNone) = [] ∧
       (keysOf sd).filter (fun k => !((stateKeys m.arch).contains k)) = []) := by
  by_cases h : ((stateKeys m.arch).filter (fun k => (lookupSD sd k).isNone) = [] ∧
      (keysOf sd).filter (fun k => !((stateKeys m.arch).contains k)) = [])
  · refine ⟨fun _ => h, fun _ =>
      ⟨{ m with vals := fun k =>
           match lookupSD sd k with
           | some t => t
           | none => m.vals k }, ?_⟩⟩
    simp only [GPModel.load_state_dict]
    rw [if_pos h]
  · refine ⟨?_, fun hc => absurd hc h⟩
    rintro ⟨m2, hm2⟩
    simp only [GPModel.load_state_dict] at hm2
    rw [if_neg h] at hm2
    cases hm2

lemma missing_nil_iff (A : List String) (sd : StateDict) :
    A.filter (fun k => (lookupSD sd k).isNone) = [] ↔ ∀ k ∈ A, k ∈ keysOf sd := by
  rw [List.filter_eq_nil_iff]
  refine forall_congr' (fun k => forall_congr' (fun hk => ?_))
  rw [← lookupSD_isSome]
  cases lookupSD sd k <;> simp

lemma unexpected_nil_iff (A : List String) (sd : StateDict) :
    (keysOf sd).filter (fun k => !(A.contains k)) = [] ↔ ∀ k ∈ keysOf sd, k ∈ A := by
  rw [List.filter_eq_nil_iff]
  refine forall_congr' (fun k => forall_congr' (fun hk => ?_))
  simp

lemma load_ok_iff_keyset (m : GPModel) (sd : StateDict) :
    (∃ m2, m.load_state_dict sd = .ok m2) ↔
      ∀ k, k ∈ stateKeys m.arch ↔ k ∈ keysOf sd := by
  rw [load_state_dict_ok_iff, missing_nil_iff, unexpected_nil_iff]
  constructor
  · rintro ⟨h1, h2⟩ k
    exact ⟨fun hk => h1 k hk, fun hk => h2 k hk⟩
  · intro h
    exact ⟨fun k hk => (h k).mp hk, fun k hk => (h k).mpr hk⟩

example : keysOf exactGPStateDict = stateKeys ExactGPModelModules := by decide

example : keysOf nnGPStateDict = stateKeys GPWithNNFeatureExtractorModules := by decide

lemma roundtrip_exists (m fresh : GPModel) (h : fresh.arch = m.arch) :
    ∃ m2, fresh.load_state_dict (torch_load (torch_save m.state_dict)) = .ok m2 ∧
      keysOf m2.state_dict = keysOf m.state_dict ∧
      m2.state_dict = m.state_dict := by
  have hsd : torch_load (torch_save m.state_dict) = m.state_dict := rfl
  rw [hsd]
  have hmiss : (stateKeys fresh.arch).filter
      (fun k => (lookupSD m.state_dict k).isNone) = [] := by
    rw [missing_nil_iff]
    intro k hk
    rw [state_dict_keys]
    rw [h] at hk
    exact hk
  have hunexp : (keysOf m.state_dict).filter
      (fun k => !((stateKeys fresh.arch).contains k)) = [] := by
    rw [unexpected_nil_iff]
    intro k hk
    rw [state_dict_keys] at hk
    rw [h]
    exact hk
  refine ⟨{ fresh with vals := fun k =>
      (match lookupSD m.state_dict k with
       | some t => t
       | none => fresh.vals k) }, ?_, ?_, ?_⟩
  · simp only [GPModel.load_state_dict]
    rw [if_pos ⟨hmiss, hunexp⟩]
  · show keysOf (GPModel.state_dict _) = _
    rw [state_dict_keys, state_dict_keys]
    show stateKeys fresh.arch = stateKeys m.arch
    rw [h]
  · have harch : ({ fresh with vals := fun k =>
        (match lookupSD m.state_dict k with
         | some t => t
         | none => fresh.vals k) } : GPModel).arch = m.arch := h
    simp only [GPModel.state_dict, harch]
    rw [h]
    apply List.map_congr_left
    intro k hk
    have hl : lookupSD (List.map (fun k => (k, m.vals k)) (stateKeys m.arch)) k
        = some (m.vals k) := by
      have hls := lookup_state_dict m k
      simp only [GPModel.state_dict] at hls
      rw [hls, if_pos hk]
    simp [hl]

lemma runEvents_eq_propagate (f : Fault) (evs : List Event) :
    runEvents f evs = propagateAll f evs := by
  induction evs with
  | nil => rfl
  | cons e rest ih =>
      cases hfe : f e with
      | some exn => simp [runEvents, propagateAll, firstFault, hfe]
      | none =>
          simp only [runEvents, propagateAll, firstFault, hfe]
          rw [ih]
          simp only [propagateAll]
          cases firstFault f rest <;> rfl

lemma runStmts_handlerFree (f : Fault) (p : List Stmt)
    (hp : handlerFree p = true) :
    runStmts f p = propagateAll f (primEvents p) := by
  induction p with
  | nil => rfl
  | cons s rest ih =>
      cases s with
      | tryExcept body handler =>
          simp [handlerFree, stmtHandlerFree] at hp
      | call e =>
          have hrest : handlerFree rest = true := by
            simpa [handlerFree, stmtHandlerFree] using hp
          have hprim : primEvents (Stmt.call e :: rest) = e :: primEvents rest := by
            simp [primEvents, stmtEvents]
          rw [hprim]
          cases hfe : f e with
          | some exn =>
              simp [runStmts, runStmt, propagateAll, firstFault, hfe]
          | none =>
              simp only [runStmts, runStmt, hfe]
              rw [ih hrest]
              simp only [propagateAll, firstFault, hfe]
              cases firstFault f (primEvents rest) <;> rfl

/-- C1: saving any model state dictionary produced in the save/load
notebook with one `torch.save`, immediately reloading it with
`torch.load`, and loading it via `load_state_dict` into a freshly
constructed model of identical architecture (same class, same
constructor arguments) succeeds and reproduces a state dictionary with
identical keys and identical parameter values. -/
theorem save_load_roundtrip_identity (m fresh : GPModel)
    (h : fresh.arch = m.arch) :
    ∃ m2, fresh.load_state_dict (torch_load (torch_save m.state_dict)) = .ok m2 ∧
      keysOf m2.state_dict = keysOf m.state_dict ∧
      m2.state_dict = m.state_dict :=
  roundtrip_exists m fresh h

/-- C1 witness: the round trip at the concrete `ExactGPModel` state
displayed in cell 5 of the save/load notebook. -/
theorem save_load_roundtrip_identity_witness :
    ∃ m2, freshExactModel.load_state_dict
        (torch_load (torch_save savedExactModel.state_dict)) = .ok m2 ∧
      keysOf m2.state_dict = keysOf savedExactModel.state_dict ∧
      m2.state_dict = savedExactModel.state_dict :=
  save_load_roundtrip_identity savedExactModel freshExactModel rfl

/-- C10: `load_state_dict` in (default) strict mode succeeds, reporting
all keys matched, exactly when the loaded dictionary's key set equals
the new model's state-dictionary key set; and both load calls of the
save/load notebook, each into a fresh model of the same class and
constructor arguments, succeed. -/
theorem load_state_dict_strict_key_matching :
    (∀ (m : GPModel) (sd : StateDict),
        (∃ m2, m.load_state_dict sd = .ok m2) ↔
          ∀ k, k ∈ stateKeys m.arch ↔ k ∈ keysOf sd) ∧
    (∃ m2, freshExactModel.load_state_dict
        (torch_load (torch_save savedExactModel.state_dict)) = .ok m2) ∧
    (∃ m2, freshNNModel.load_state_dict
        (torch_load (torch_save savedNNModel.state_dict)) = .ok m2) := by
  have h1 : torch_load (torch_save savedExactModel.state_dict) =
      savedExactModel.state_dict := rfl
  have h2 : torch_load (torch_save savedNNModel.state_dict) =
      savedNNModel.state_dict := rfl
  refine ⟨load_ok_iff_keyset, ?_, ?_⟩
  · rw [h1, load_ok_iff_keyset]
    intro k
    rw [state_dict_keys]
    exact Iff.rfl
  · rw [h2, load_ok_iff_keyset]
    intro k
    rw [state_dict_keys]
    exact Iff.rfl

/-- C2 counterexample: the save/load notebook performs two `torch.save`
calls (it writes two checkpoint files), and the two training notebooks
perform none, so "each notebook writes exactly one binary
parameter-checkpoint file" is false. -/
theorem one_checkpoint_per_notebook_counterexample :
    countEvents saveLoadNotebook isSave = 2 ∧
    countEvents (spectralNotebook false) isSave = 0 ∧
    countEvents (ciqNotebook false false false) isSave = 0 := by
  decide

/-- C2 amended: the save/load notebook writes exactly two checkpoint
files, each produced by exactly one save call and consumed by exactly
one load call, with no framing, versioning, or validation logic around
them; the two training notebooks write and read no checkpoint at all,
under every configuration. -/
theorem checkpoint_save_load_pairing :
    (countEvents saveLoadNotebook isSave = 2 ∧
     countEvents saveLoadNotebook isLoad = 2 ∧
     countEvents saveLoadNotebook (isSaveOf "model_state.pth") = 1 ∧
     countEvents saveLoadNotebook (isLoadOf "model_state.pth") = 1 ∧
     countEvents saveLoadNotebook (isSaveOf "my_gp_with_nn_model.pth") = 1 ∧
     countEvents saveLoadNotebook (isLoadOf "my_gp_with_nn_model.pth") = 1 ∧
     countEvents saveLoadNotebook isValidation = 0) ∧
    (∀ ci : Bool,
       countEvents (spectralNotebook ci) isSave = 0 ∧
       countEvents (spectralNotebook ci) isLoad = 0 ∧
       countEvents (spectralNotebook ci) isValidation = 0) ∧
    (∀ ci keops cuda : Bool,
       countEvents (ciqNotebook ci keops cuda) isSave = 0 ∧
       countEvents (ciqNotebook ci keops cuda) isLoad = 0 ∧
       countEvents (ciqNotebook ci keops cuda) isValidation = 0) := by
  refine ⟨?_, ?_, ?_⟩ <;> decide

/-- C3 counterexample: the spectral-mixture notebook neither saves nor
loads parameters, the CIQ notebook neither saves/loads nor plots, and
the save/load notebook runs no training loop and plots nothing, so
"every notebook performs all four activities" is false. -/
theorem four_activities_per_notebook_counterexample :
    savesAndLoads (spectralNotebook false) = false ∧
    savesAndLoads (ciqNotebook false false false) = false ∧
    plotsResults (ciqNotebook false false false) = false ∧
    runsTrainingLoop saveLoadNotebook = false ∧
    plotsResults saveLoadNotebook = false := by
  decide

/-- C3 amended: every notebook defines a model subclass; the
spectral-mixture and CIQ notebooks (and only they) run a
gradient-descent loop on a marginal-likelihood objective; the save/load
notebook (and only it) saves and loads learned parameters; the
spectral-mixture notebook (and only it) plots predictive results. -/
theorem notebook_activities :
    ∀ ci keops cuda : Bool,
      definesModelClass saveLoadNotebook = true ∧
      definesModelClass (spectralNotebook ci) = true ∧
      definesModelClass (ciqNotebook ci keops cuda) = true ∧
      runsTrainingLoop (spectralNotebook ci) = true ∧
      runsTrainingLoop (ciqNotebook ci keops cuda) = true ∧
      runsTrainingLoop saveLoadNotebook = false ∧
      savesAndLoads saveLoadNotebook = true ∧
      savesAndLoads (spectralNotebook ci) = false ∧
      savesAndLoads (ciqNotebook ci keops cuda) = false ∧
      plotsResults (spectralNotebook ci) = true ∧
      plotsResults saveLoadNotebook = false ∧
      plotsResults (ciqNotebook ci keops cuda) = false := by
  decide

/-- C4: no statement of any notebook is a try/except block, and
consequently, under every fault behaviour of the external framework,
running a notebook propagates the first raised exception unchanged to
the top level: no recovery, retry, or validation intervenes. -/
theorem errors_propagate_unchanged :
    (handlerFree saveLoadNotebook = true ∧
     (∀ ci : Bool, handlerFree (spectralNotebook ci) = true) ∧
     (∀ ci keops cuda : Bool, handlerFree (ciqNotebook ci keops cuda) = true)) ∧
    ((∀ f : Fault,
        runStmts f saveLoadNotebook = propagateAll f (primEvents saveLoadNotebook)) ∧
     (∀ (ci : Bool) (f : Fault),
        runStmts f (spectralNotebook ci) =
          propagateAll f (primEvents (spectralNotebook ci))) ∧
     (∀ (ci keops cuda : Bool) (f : Fault),
        runStmts f (ciqNotebook ci keops cuda) =
          propagateAll f (primEvents (ciqNotebook ci keops cuda)))) := by
  have h1 : handlerFree saveLoadNotebook = true := by decide
  have h2 : ∀ ci : Bool, handlerFree (spectralNotebook ci) = true := by decide
  have h3 : ∀ ci keops cuda : Bool,
      handlerFree (ciqNotebook ci keops cuda) = true := by decide
  exact ⟨⟨h1, h2, h3⟩,
    ⟨fun f => runStmts_handlerFree f _ h1,
     fun ci f => runStmts_handlerFree f _ (h2 ci),
     fun ci keops cuda f => runStmts_handlerFree f _ (h3 ci keops cuda)⟩⟩

/-- C5: each training loop runs exactly `training_iter` iterations,
where `training_iter` is 2 when `CI` is set and otherwise 100
(spectral-mixture) or 50 (CIQ); and the loop events of each notebook
are exactly, per iteration and in order: zero the gradients, evaluate
the model on `train_x`, compute the loss as the negated exact marginal
log-likelihood against `train_y`, backpropagate, print, and take one
Adam step. -/
theorem training_loop_structure :
    (trainingIterSpectral true = 2 ∧ trainingIterSpectral false = 100 ∧
     trainingIterCIQ true = 2 ∧ trainingIterCIQ false = 50) ∧
    (∀ ci : Bool,
       countEvents (spectralNotebook ci) isAdamStep = trainingIterSpectral ci ∧
       (primEvents (spectralNotebook ci)).filter isLoopEvent =
         ((List.range (trainingIterSpectral ci)).map (fun i =>
            [Event.zeroGrad, Event.evalModel "train_x",
             Event.computeLoss true "ExactMarginalLogLikelihood" "train_y",
             Event.backward, Event.printIter (i + 1) (trainingIterSpectral ci),
             Event.adamStep])).flatten) ∧
    (∀ ci keops cuda : Bool,
       countEvents (ciqNotebook ci keops cuda) isAdamStep = trainingIterCIQ ci ∧
       (primEvents (ciqNotebook ci keops cuda)).filter isLoopEvent =
         ((List.range (trainingIterCIQ ci)).map (fun i =>
            [Event.zeroGrad, Event.evalModel "train_x",
             Event.computeLoss true "ExactMarginalLogLikelihood" "train_y",
             Event.backward, Event.printIter (i + 1) (trainingIterCIQ ci),
             Event.adamStep])).flatten) := by
  refine ⟨?_, ?_, ?_⟩ <;> decide

/-- C6 counterexample: two runs of the spectral-mixture notebook that
differ only in the `CI` environment variable perform different
computations (2 vs 100 optimizer steps), and two runs of the CIQ
notebook that differ only in the `HAVE_KEOPS` flag differ in kernel
choice and test-set size. -/
theorem no_configuration_surface_counterexample :
    primEvents (spectralNotebook true) ≠ primEvents (spectralNotebook false) ∧
    countEvents (spectralNotebook true) isAdamStep = 2 ∧
    countEvents (spectralNotebook false) isAdamStep = 100 ∧
    primEvents (ciqNotebook false true false) ≠
      primEvents (ciqNotebook false false false) ∧
    ciqKernel true ≠ ciqKernel false ∧
    ciqTestN true = 50000 ∧ ciqTestN false = 10000 := by
  decide

/-- C6 amended: the notebooks do define a configuration surface.  The
`CI` environment variable selects the training-iteration count (2 when
set, otherwise 100 or 50), and the CIQ notebook's `HAVE_KEOPS` flag
selects the kernel (`keops.RBFKernel` vs `RBFKernel`) and the test-set
size (50000 vs 10000); the save/load notebook reads no environment
variable or configuration flag, so only for it do two runs always
perform the same computation. -/
theorem configuration_dependence :
    countEvents saveLoadNotebook isConfigRead = 0 ∧
    (∀ ci : Bool,
       countEvents (spectralNotebook ci) isAdamStep = trainingIterSpectral ci ∧
       countEvents (ciqNotebook ci false false) isAdamStep = trainingIterCIQ ci) ∧
    trainingIterSpectral true = 2 ∧ trainingIterSpectral false = 100 ∧
    trainingIterCIQ true = 2 ∧ trainingIterCIQ false = 50 ∧
    ciqKernel true = "keops.RBFKernel" ∧ ciqKernel false = "RBFKernel" ∧
    ciqTestN true = 50000 ∧ ciqTestN false = 10000 := by
  refine ⟨?_, ?_, ?_⟩ <;> decide

/-- C7 counterexample: the NN model's state dict, displayed and saved
by the save/load notebook, contains the key
`feature_extractor.0.weight`, whose dot-separated segment `0` is not an
identifier, so "strings of identifiers joined by dots" is false. -/
theorem dotted_identifier_keys_counterexample :
    "feature_extractor.0.weight" ∈ keysOf nnGPStateDict ∧
    isDottedIdentName "feature_extractor.0.weight" = false := by
  decide

/-- C7 amended: every key of every state dictionary the save/load
notebook displays, saves, or loads is a dotted name whose segments are
identifiers or decimal numerals (the `Sequential` child indices), its
values are tensors, and the notebook passes each dictionary through
save, load, and `load_state_dict` unchanged: the saved dictionary is
exactly the model's `state_dict()` and the loaded dictionary is
identical to the saved one. -/
theorem state_dict_keys_and_passthrough :
    (∀ k ∈ keysOf exactGPStateDict, isDottedName k = true) ∧
    (∀ k ∈ keysOf nnGPStateDict, isDottedName k = true) ∧
    (∀ sd : StateDict, torch_load (torch_save sd) = sd) ∧
    savedExactModel.state_dict = exactGPStateDict ∧
    savedNNModel.state_dict = nnGPStateDict := by
  refine ⟨?_, ?_, fun sd => rfl, ?_, ?_⟩ <;> decide

/-- C8: beyond the trainable parameters, the checkpoints contain
non-trainable entries: the constraint lower/upper bounds for noise,
lengthscale, and outputscale in both models, and for the NN feature
extractor the batch-norm `running_mean`, `running_var`, and
`num_batches_tracked` buffers; all of these are round-tripped through
save and load along with everything else. -/
theorem checkpoint_nontrainable_entries :
    (∀ k ∈ constraintBoundKeys,
       k ∈ keysOf exactGPStateDict ∧ k ∈ keysOf nnGPStateDict) ∧
    (∀ k ∈ batchNormBufferKeys, k ∈ keysOf nnGPStateDict) ∧
    freshExactModel.load_state_dict (torch_load (torch_save exactGPStateDict)) =
      .ok exactRoundtripModel ∧
    (∀ k ∈ constraintBoundKeys,
       lookupSD exactRoundtripModel.state_dict k = lookupSD exactGPStateDict k) ∧
    freshNNModel.load_state_dict (torch_load (torch_save nnGPStateDict)) =
      .ok nnRoundtripModel ∧
    (∀ k ∈ constraintBoundKeys ++ batchNormBufferKeys,
       lookupSD nnRoundtripModel.state_dict k = lookupSD nnGPStateDict k) := by
  refine ⟨?_, ?_, rfl, ?_, rfl, ?_⟩ <;> decide

/-- C9: iterating the training-loop body any number of times leaves the
training inputs `train_x` and targets `train_y` unchanged; the body
writes only the parameters, their gradients, and the optimizer's
per-parameter state. -/
theorem training_loop_preserves_training_data
    (g : (String → Tensor) → List Val → List Val → String → Tensor)
    (adam : Tensor → Tensor → Tensor × Tensor → Tensor × (Tensor × Tensor))
    (n : Nat) (s : TrainState) :
    ((trainStep g adam)^[n] s).train_x = s.train_x ∧
    ((trainStep g adam)^[n] s).train_y = s.train_y := by
  induction n with
  | zero => exact ⟨rfl, rfl⟩
  | succ k ih =>
      rw [Function.iterate_succ_apply']
      rcases ih with ⟨hx, hy⟩
      exact ⟨hx ▸ rfl, hy ▸ rfl⟩

end GPNotebooks
